import Mathlib

/-!
Shallow embedding of the orchestration logic of the `genai_bootcamp`
repository, together with proofs of its specified properties.

The embedding covers:
* the STUDY-BUDDY-AI quiz generator
  (`app/components/question_chain.py`, `app/components/helpers.py`);
* the week_3 RAG system (`rag_system.py`) and its LLM provider factory
  (`llm_provider_factory.py`);
* the customer-chatbot history truncation (`customer_chatbot/app.py`);
* the week_4 blog-generator HTTP endpoint (`week_4/app.py`).

Python exceptions are modelled with `Except`/an explicit error type;
Python's `None` with `Option`; dictionaries of known shape with
structures.  External SDK calls (the LLM chain invocation, the Chroma
vector-database client) are modelled as parameters or as small state
machines that follow the vendor's published contract (in particular,
Chroma enforces uniqueness of entry ids within a collection, so adding
an entry whose id is already present is a no-op).
-/

namespace Py

/-- Python truthiness of `doc.metadata.get(key)`-style values: `None` and
the empty string are falsy. -/
def pyTruthy : Option String → Bool
  | none => false
  | some s => s != ""

/-- The Python slice `l[-n:]`: the last `n` elements (the whole list when
it is shorter than `n`). -/
def pySliceLast {α : Type} (n : Nat) (l : List α) : List α :=
  l.drop (l.length - n)

/-- The Python `needle in hay` test on strings. -/
def strContains (hay needle : String) : Bool :=
  decide (needle.toList <:+: hay.toList)

/-- Python `str.strip()`: remove leading and trailing whitespace. -/
def pyStrip (s : String) : String :=
  ⟨((s.toList.dropWhile Char.isWhitespace).reverse.dropWhile
      Char.isWhitespace).reverse⟩

/-- Python `str.lower()`: lower-case every character. -/
def pyLower (s : String) : String :=
  ⟨s.toList.map Char.toLower⟩

/-- Python `str.startswith(prefix)`. -/
def pyStartsWith (s pre : String) : Bool :=
  decide (pre.toList <+: s.toList)

end Py

namespace StudyBuddy

open Py

/-- Python exception values as they flow through the quiz generator:
`ValueError(msg)` and `CustomException(msg, cause)` (the project's own
exception class, taking a message and an optional wrapped error). -/
inductive PyError where
  | valueError (msg : String)
  | customException (msg : String) (cause : Option PyError)
  deriving Repr

/-- `MCQQuestion` pydantic schema: question text, options, correct answer. -/
structure MCQQuestion where
  question : String
  options : List String
  correct_answer : String
  deriving Repr, DecidableEq

/-- `FillBlankQuestion` pydantic schema: question text and the answer. -/
structure FillBlankQuestion where
  question : String
  answer : String
  deriving Repr, DecidableEq

/-- `MAX_RETRIES` from `app/config/config.py`. -/
def MAX_RETRIES : Nat := 3

/-- One attempt of the MCQ loop body in `generate_mcq`: invoke the chain
(`invoke i` is the outcome of the i-th chain invocation, which may itself
raise), then validate:
`if len(question.options) != 4 or question.correct_answer not in
question.options: raise ValueError("Invalid MCQ Structure")`. -/
def attemptMCQ (invoke : Nat → Except PyError MCQQuestion) (i : Nat) :
    Except PyError MCQQuestion :=
  match invoke i with
  | .error e => .error e
  | .ok q =>
      if q.options.length != 4 || !(q.options.contains q.correct_answer) then
        .error (.valueError "Invalid MCQ Structure")
      else
        .ok q

/-- One attempt of the fill-blank loop body in `generate_fill_blank`:
invoke the chain, then validate
`if "___" not in question.question: raise ValueError(...)`. -/
def attemptFillBlank (invoke : Nat → Except PyError FillBlankQuestion)
    (i : Nat) : Except PyError FillBlankQuestion :=
  match invoke i with
  | .error e => .error e
  | .ok q =>
      if !(decide ("___".toList <:+: q.question.toList)) then
        .error (.valueError "Fill in blanks should contain '___'")
      else
        .ok q

/-- The `for attempt in range(MAX_RETRIES)` loop shared by `generate_mcq`
and `generate_fill_blank`, run over the list of attempt indices.  A
successful attempt returns immediately; a failing attempt at index
`MAX_RETRIES - 1` raises `CustomException(failMsg, e)`; an earlier failure
is logged and the loop continues.  Falling off the loop (only possible on
an empty index list, i.e. `MAX_RETRIES = 0`) returns Python `None`. -/
def retryLoop {α : Type} (attempt : Nat → Except PyError α)
    (failMsg : String) : List Nat → Except PyError (Option α)
  | [] => .ok none
  | i :: rest =>
      match attempt i with
      | .ok q => .ok (some q)
      | .error e =>
          if i == MAX_RETRIES - 1 then
            .error (.customException failMsg (some e))
          else
            retryLoop attempt failMsg rest

/-- `generate_mcq` (question_chain.py:144-172).  `chain` is the result of
`create_mcq_chain` (`none` models a chain-creation failure, which the
source turns into `CustomException("MCQ chain could not be created")`);
`invoke i` models the i-th `chain.invoke(...)` outcome.  The outer
`except` wraps any escaping error in
`CustomException("MCQ generation failed", e)`. -/
def generate_mcq (chain : Option (Nat → Except PyError MCQQuestion)) :
    Except PyError (Option MCQQuestion) :=
  let inner : Except PyError (Option MCQQuestion) :=
    match chain with
    | none => .error (.customException "MCQ chain could not be created" none)
    | some invoke =>
        retryLoop (attemptMCQ invoke)
          ("MCQ generation failed after " ++ toString MAX_RETRIES ++ " attempts")
          (List.range MAX_RETRIES)
  match inner with
  | .ok r => .ok r
  | .error e => .error (.customException "MCQ generation failed" (some e))

/-- `generate_fill_blank` (question_chain.py:175-203); same shape as
`generate_mcq` with the fill-blank validation and messages. -/
def generate_fill_blank
    (chain : Option (Nat → Except PyError FillBlankQuestion)) :
    Except PyError (Option FillBlankQuestion) :=
  let inner : Except PyError (Option FillBlankQuestion) :=
    match chain with
    | none =>
        .error (.customException "Fill Blank chain could not be created" none)
    | some invoke =>
        retryLoop (attemptFillBlank invoke)
          ("Fill Blank generation failed after " ++ toString MAX_RETRIES ++ " attempts")
          (List.range MAX_RETRIES)
  match inner with
  | .ok r => .ok r
  | .error e =>
      .error (.customException "Fill in blanks generation failed" (some e))

/-- A stored quiz question as built by `QuizManager.generate_questions`
(helpers.py): its type tag is `'MCQ'` or `'Fill in the blank'`. -/
structure QuizQuestion where
  qtype : String
  question : String
  options : List String
  correct_answer : String
  deriving Repr, DecidableEq

/-- One row of `QuizManager.evaluate_quiz`'s results. -/
structure QuizResult where
  question_number : Nat
  question : String
  question_type : String
  user_answer : String
  correct_answer : String
  is_correct : Bool
  options : List String
  deriving Repr, DecidableEq

/-- The per-question body of `QuizManager.evaluate_quiz` (helpers.py:80-102):
MCQ answers are compared with `==`; fill-blank answers with
`user_ans.strip().lower() == correct.strip().lower()`. -/
def evaluateOne (i : Nat) (q : QuizQuestion) (user_ans : String) : QuizResult :=
  if q.qtype == "MCQ" then
    { question_number := i + 1
      question := q.question
      question_type := q.qtype
      user_answer := user_ans
      correct_answer := q.correct_answer
      is_correct := user_ans == q.correct_answer
      options := q.options }
  else
    { question_number := i + 1
      question := q.question
      question_type := q.qtype
      user_answer := user_ans
      correct_answer := q.correct_answer
      is_correct :=
        pyLower (pyStrip user_ans) == pyLower (pyStrip q.correct_answer)
      options := [] }

/-- `QuizManager.evaluate_quiz`: zip questions with user answers and
evaluate each pair (enumerate supplies the question number). -/
def evaluate_quiz (questions : List QuizQuestion) (user_answers : List String) :
    List QuizResult :=
  ((questions.zip user_answers).enum).map fun (i, q, ua) => evaluateOne i q ua

end StudyBuddy


namespace Week3

open Py

/-- Chunk metadata as read by `rag_system.py` (`metadata.get(...)`
returns `None` for an absent key). -/
structure Metadata where
  source : Option String
  title : Option String
  authors : Option String
  publish_date : Option String
  deriving Repr, DecidableEq

/-- A LangChain `Document`: page content plus metadata. -/
structure Document where
  page_content : String
  metadata : Metadata
  deriving Repr, DecidableEq

/-- An index entry persisted in the vector store: `(id, text, metadata)`
(the embedding vector is derived from the text and plays no role in the
orchestrator's logic). -/
structure Entry where
  id : String
  text : String
  metadata : Metadata
  deriving Repr, DecidableEq

/-- Chroma `collection.add`: the store enforces uniqueness of ids within
a collection, so an incoming entry whose id is already present is
skipped (the vendor logs "Insert of existing embedding ID" and does not
store a duplicate). -/
def chromaAdd (store : List Entry) (newEntries : List Entry) : List Entry :=
  newEntries.foldl
    (fun s e => if s.any (fun x => x.id == e.id) then s else s ++ [e]) store

/-- Chroma `collection.query` result shape: `{'documents': [[...]],
'metadatas': [[...]]}` (one inner list per query text). -/
structure ChromaQueryResult where
  documents : List (List String)
  metadatas : List (List Metadata)
  deriving Repr, DecidableEq

/-- Chroma `collection.query(query_texts=[q], n_results=k)`: the vendor
returns the `k` nearest entries, i.e. a similarity ranking of the store
truncated to `k`.  The ranking is abstracted as a function `rank`; the
theorems assume only that it permutes the store. -/
def chromaQuery (rank : String → List Entry → List Entry)
    (store : List Entry) (q : String) (k : Nat) : ChromaQueryResult :=
  let ranked := (rank q store).take k
  { documents := [ranked.map (·.text)]
    metadatas := [ranked.map (·.metadata)] }

/-- The LangChain `Chroma` wrapper state: its entries plus a counter
modelling the fresh UUID4 ids `add_documents` generates. -/
structure LCStore where
  entries : List Entry
  nextId : Nat
  deriving Repr, DecidableEq

/-- LangChain `vector_store.add_documents(documents)`: every document is
stored under a freshly generated UUID, so all of them are appended. -/
def lcAddDocuments (vs : LCStore) (docs : List Document) : LCStore :=
  { entries := vs.entries ++ docs.enum.map (fun p =>
      { id := "uuid-" ++ toString (vs.nextId + p.1)
        text := p.2.page_content
        metadata := p.2.metadata })
    nextId := vs.nextId + docs.length }

/-- LangChain `vector_store.similarity_search(query, k=k)`: the `k`
nearest entries, as documents. -/
def lcSimilaritySearch (rank : String → List Entry → List Entry)
    (vs : LCStore) (query : String) (k : Nat) : List Document :=
  ((rank query vs.entries).take k).map fun e =>
    { page_content := e.text, metadata := e.metadata }

/-- The vector-store half of a `RAGSystem`'s state: either a raw Chroma
collection (`embedding_type == "chroma_default"`) or the LangChain
Chroma wrapper. -/
inductive StoreState where
  | chromaDefault (collection : List Entry)
  | langchain (vs : LCStore)
  deriving Repr, DecidableEq

/-- The entries currently in the store, whichever path is active. -/
def StoreState.entries : StoreState → List Entry
  | .chromaDefault c => c
  | .langchain vs => vs.entries

/-- `get_collection_stats`'s count: `collection.count()` resp.
`len(vector_store.get()['ids'])`. -/
def storeCount (st : StoreState) : Nat := st.entries.length

/-- `RAGSystem._add_documents` (rag_system.py:225-240).  On the
chroma_default path it assigns ids `doc_{i}_{hash(doc.page_content)}`
(`pyHash` models Python's process-stable string `hash`) and calls
`collection.add`; on the LangChain path it calls
`vector_store.add_documents`. -/
def _add_documents (pyHash : String → Int) (st : StoreState)
    (documents : List Document) : StoreState :=
  match st with
  | .chromaDefault c =>
      .chromaDefault (chromaAdd c (documents.enum.map fun p =>
        { id := "doc_" ++ toString p.1 ++ "_" ++ toString (pyHash p.2.page_content)
          text := p.2.page_content
          metadata := p.2.metadata }))
  | .langchain vs => .langchain (lcAddDocuments vs documents)

/-- `RAGSystem.search` (rag_system.py:242-270): chroma_default path runs
`collection.query` and converts the parallel result lists back into
`Document`s (guarded by the truthiness checks on `results['documents']`
and `results['documents'][0]`); LangChain path delegates to
`similarity_search`. -/
def search (rank : String → List Entry → List Entry) (st : StoreState)
    (query : String) (k : Nat) : List Document :=
  match st with
  | .chromaDefault c =>
      let results := chromaQuery rank c query k
      if !results.documents.isEmpty && !(results.documents.headD []).isEmpty then
        (results.documents.headD []).enum.map fun p =>
          { page_content := p.2
            metadata :=
              if !results.metadatas.isEmpty then
                (results.metadatas.headD []).getD p.1
                  ⟨none, none, none, none⟩
              else ⟨none, none, none, none⟩ }
      else []
  | .langchain vs => lcSimilaritySearch rank vs query k

/-- A conversation message `{"role": ..., "content": ...}`. -/
structure ChatMessage where
  role : String
  content : String
  deriving Repr, DecidableEq

/-- One rendered history line of `RAGSystem.chat`:
`f"{role}: {msg['content']}\n\n"` with role `"User"` when
`msg["role"] == "user"` and `"Assistant"` otherwise. -/
def renderMsg (m : ChatMessage) : String :=
  (if m.role == "user" then "User" else "Assistant") ++ ": " ++ m.content ++ "\n\n"

/-- The conversation-context string of `RAGSystem.chat`
(rag_system.py:306-312): empty when the history is empty, else the last
6 messages (`chat_history[-6:]`) rendered oldest-first by repeated
concatenation. -/
def conversationContext (chat_history : List ChatMessage) : String :=
  if !chat_history.isEmpty then
    ((pySliceLast 6 chat_history).map renderMsg).foldl (· ++ ·) ""
  else ""

/-- A reference entry extracted by `RAGSystem.chat` from retrieved
chunks' metadata. -/
structure Reference where
  url : String
  title : String
  authors : String
  publish_date : String
  deriving Repr, DecidableEq

/-- The reference record built from one document's metadata
(rag_system.py:353-358). -/
def mkRef (d : Document) : Reference :=
  { url := d.metadata.source.getD ""
    title := d.metadata.title.getD "Unknown Title"
    authors := d.metadata.authors.getD "Unknown"
    publish_date := d.metadata.publish_date.getD "Unknown" }

/-- The reference-extraction loop of `RAGSystem.chat`
(rag_system.py:346-358): walk the retrieved documents, skip documents
whose `source` is falsy (`None` or `""`) or already seen, and append a
reference for each first occurrence. -/
def extractRefs : List Document → List String → List Reference
  | [], _ => []
  | d :: rest, seen =>
      let src := d.metadata.source
      if pyTruthy src && !(seen.contains (src.getD "")) then
        mkRef d :: extractRefs rest (src.getD "" :: seen)
      else
        extractRefs rest seen

/-- The result dictionary returned by `RAGSystem.chat`. -/
structure ChatResult where
  success : Bool
  summary : String
  error : Option String
  num_chunks_retrieved : Option Nat
  references : Option (List Reference)
  deriving Repr, DecidableEq

/-- The `except` branch of `RAGSystem.chat`: a structured failure
`{"success": False, "summary": "", "error": f"Error in chat: {e}"}`. -/
def chatExcResult (e : String) : ChatResult :=
  { success := false, summary := "", error := some ("Error in chat: " ++ e)
    num_chunks_retrieved := none, references := none }

/-- The `[Document {i}]` context block built from the retrieved
documents (rag_system.py:299-303). -/
def contextOf (relevant_docs : List Document) : String :=
  String.intercalate "\n"
    ((relevant_docs.enum).map fun p =>
      "[Document " ++ toString (p.1 + 1) ++ "]\n" ++ p.2.page_content ++ "\n")

/-- `RAGSystem.chat` (rag_system.py:272-372).  External effects are
parameters: `searchRes` is the outcome of `self.search(query, k=4)`
(which may raise), `llm` is `self.llm.invoke` on the composed
(system message, prompt) pair (which may raise), and `prompt_of` models
the content-type dispatch over the appconfig system messages and
`PROMPT_TEMPLATE.format(conversation_context=..., context=..., query=...)`
calls, returning the (system content, prompt) pair.  The whole body runs
inside `try`, every raise being converted by `chatExcResult`. -/
def chat (prompt_of : String → String → String → String → String × String)
    (llm : String × String → Except String String)
    (searchRes : Except String (List Document))
    (query : String) (chat_history : Option (List ChatMessage))
    (content_type : String) : ChatResult :=
  let history := chat_history.getD []
  match searchRes with
  | .error e => chatExcResult e
  | .ok relevant_docs =>
      if relevant_docs.isEmpty then
        { success := false, summary := ""
          error := some "No relevant documents found"
          num_chunks_retrieved := none, references := none }
      else
        let context := contextOf relevant_docs
        let conv := conversationContext history
        let convArg := if conv == "" then "No previous conversation." else conv
        let messages := prompt_of content_type convArg context query
        match llm messages with
        | .error e => chatExcResult e
        | .ok content =>
            { success := true, summary := content, error := none
              num_chunks_retrieved := some relevant_docs.length
              references := some (extractRefs relevant_docs []) }

/-- The result dictionary returned by `RAGSystem.delete_article`. -/
structure DeleteResult where
  success : Bool
  message : String
  chunks_deleted : Option Nat
  error : Option String
  deriving Repr, DecidableEq

/-- The id-collection loop shared by both branches of `delete_article`:
ids of the entries whose `metadata.get('source')` equals the url. -/
def idsToDelete (entries : List Entry) (url : String) : List String :=
  (entries.filter (fun e => e.metadata.source == some url)).map (·.id)

/-- `RAGSystem.delete_article` (rag_system.py:434-494): collect the ids
of entries whose metadata source matches the url; if any, delete them
(`collection.delete(ids=...)` resp. `vector_store.delete(ids=...)`) and
report the count; otherwise return a `success: False` "Article not found
in index" result.  Returns the new store state and the result dict. -/
def delete_article (st : StoreState) (url : String) :
    StoreState × DeleteResult :=
  let ids := idsToDelete st.entries url
  if !ids.isEmpty then
    let remaining := st.entries.filter (fun e => !(ids.contains e.id))
    let st' : StoreState :=
      match st with
      | .chromaDefault _ => .chromaDefault remaining
      | .langchain vs => .langchain { vs with entries := remaining }
    (st',
      { success := true
        message := "Deleted " ++ toString ids.length ++ " chunks from article"
        chunks_deleted := some ids.length
        error := none })
  else
    (st,
      { success := false
        message := "Article not found in index"
        chunks_deleted := none
        error := none })

/-- `LLMProvider` enum from llm_provider_factory.py. -/
inductive LLMProvider where
  | openai
  | groq
  deriving Repr, DecidableEq

/-- The Python `LLMProvider(value)` enum lookup: `some` member whose
value matches, else it raises
`ValueError: '...' is not a valid LLMProvider`. -/
def llmProviderOfValue (s : String) : Option LLMProvider :=
  if s == "openai" then some .openai
  else if s == "groq" then some .groq
  else none

/-- An LLM client instance as constructed by the factory. -/
inductive LLMInstance where
  | chatOpenAI (model : String) (openai_api_key : String)
  | chatGroq (model : String) (groq_api_key : String)
  deriving Repr, DecidableEq

/-- `LLMProviderFactory.create_llm` (llm_provider_factory.py:44-91):
`if not api_key: raise ValueError(f"API key is required for {provider}")`;
then `LLMProvider(provider.lower())` (raising `ValueError` for an
unsupported name); then dispatch to the matching client constructor.
The trailing `else: raise ValueError(f"Unsupported provider: ...")` is
unreachable, the enum lookup having already raised. -/
def create_llm (provider : String) (model_name : String)
    (api_key : Option String) : Except String LLMInstance :=
  if !(pyTruthy api_key) then
    .error ("API key is required for " ++ provider)
  else
    match llmProviderOfValue (pyLower provider) with
    | none =>
        .error ("'" ++ pyLower provider ++ "' is not a valid LLMProvider")
    | some .openai => .ok (.chatOpenAI model_name (api_key.getD ""))
    | some .groq => .ok (.chatGroq model_name (api_key.getD ""))

/-- `PROVIDER_MODELS[LLMProvider.OPENAI]`. -/
def openaiModels : List String := ["gpt-5", "gpt-5-mini", "gpt-5-nano"]

/-- `PROVIDER_MODELS[LLMProvider.GROQ]`. -/
def groqModels : List String := ["llama-3.3-70b-versatile", "llama-3.1-8b-instant"]

/-- `LLMProviderFactory.detect_provider` (llm_provider_factory.py:117-141):
scan the OpenAI model list (`model.lower() in model_lower or
model_lower.startswith("gpt")`), then the Groq list (`model.lower() in
model_lower or "llama" in model_lower or "mixtral" in model_lower`),
returning at the first hit; `# Default to OpenAI` otherwise. -/
def detect_provider (model_name : String) : String :=
  let ml := pyLower model_name
  if openaiModels.any (fun m => strContains ml (pyLower m) || pyStartsWith ml "gpt") then
    "openai"
  else if groqModels.any (fun m =>
      strContains ml (pyLower m) || strContains ml "llama" || strContains ml "mixtral") then
    "groq"
  else
    "openai"

/-- Reference extraction restated from the spec sentence ("exactly one
entry per distinct source identifier, chunks with no source omitted,
first-occurrence order, each entry carrying that source's url and
title"): keep the first document of each (truthy) source, dropping the
later documents of the same source, in order. -/
def refsOf : List Document → List Reference
  | [] => []
  | d :: rest =>
      if pyTruthy d.metadata.source then
        mkRef d :: refsOf (rest.filter (fun d' => d'.metadata.source != d.metadata.source))
      else
        refsOf rest
  termination_by l => l.length
  decreasing_by
    · exact Nat.lt_succ_of_le (List.length_filter_le _ _)
    · exact Nat.lt_succ_of_le (Nat.le_refl _)

end Week3

namespace CustomerChatbot

open Py Week3

/-- The history-bound of `customer_chatbot/app.py`: "Keep history
manageable (last 10 exchanges)". -/
def HISTORY_BOUND : Nat := 20

/-- The two messages appended per chat exchange
(`customer_chatbot/app.py:187-189`). -/
def exchangeMsgs (prompt response : String) : List ChatMessage :=
  [{ role := "user", content := prompt }, { role := "assistant", content := response }]

/-- One chat exchange's effect on `st.session_state.history`
(`customer_chatbot/app.py:187-193`): append the user and assistant
turns, then `if len(history) > 20: history = history[-20:]`. -/
def historyStep (history : List ChatMessage) (prompt response : String) :
    List ChatMessage :=
  let h := history ++ exchangeMsgs prompt response
  if h.length > HISTORY_BOUND then pySliceLast HISTORY_BOUND h else h

/-- A whole session: the history after a sequence of (prompt, response)
exchanges starting from the empty history. -/
def runSession (exchanges : List (String × String)) : List ChatMessage :=
  exchanges.foldl (fun h e => historyStep h e.1 e.2) []

/-- The full message stream of a session, without truncation. -/
def allMsgs (exchanges : List (String × String)) : List ChatMessage :=
  (exchanges.map (fun e => exchangeMsgs e.1 e.2)).flatten

end CustomerChatbot

namespace Week4

open Py

/-- The fields of a `POST /blogs` request body
(`week_4/app.py`, `BlogRequest`).  The temperature is a JSON number,
modelled as a rational. -/
structure BlogRequestInput where
  topic : String
  language : String
  model : String
  temperature : ℚ
  deriving Repr, DecidableEq

/-- The request-model constraints FastAPI/pydantic actually registers
for `BlogRequest`: `topic: min_length=3` and `temperature: ge=0, le=2`
(`week_4/app.py:49-54`).  `validate_model` (app.py:56-61) is a plain
`classmethod`, not a pydantic validator, so it is never part of request
validation. -/
def registeredValidation (r : BlogRequestInput) : Bool :=
  decide (3 ≤ r.topic.length) && decide ((0 : ℚ) ≤ r.temperature)
    && decide (r.temperature ≤ (2 : ℚ))

/-- The dead `BlogRequest.validate_model` classmethod (app.py:56-61),
verbatim: it would reject models outside `["gpt-5", "gpt-5-mini"]`, but
no code path calls it. -/
def validate_model (v : String) : Except String String :=
  if !(["gpt-5", "gpt-5-mini"].contains v) then
    .error ("Model must be one of ['gpt-5', 'gpt-5-mini']. Got: " ++ v)
  else
    .ok v

/-- Exceptions escaping the handler body: Python `ValueError` versus any
other exception (the two `except` arms of `create_blog`). -/
inductive HandlerExc where
  | valueError (msg : String)
  | otherExc (msg : String)
  deriving Repr, DecidableEq

/-- The `blog` record inside the graph's final state
(`state.get("blog", {})` with `.get` defaults). -/
structure BlogDict where
  language : Option String
  title : Option String
  content : Option String
  deriving Repr, DecidableEq

/-- The LangGraph final state as read by `create_blog`: an optional
`error` entry and an optional `blog` record. -/
structure GraphState where
  error : Option String
  blog : Option BlogDict
  deriving Repr, DecidableEq

/-- The `BlogResponse` body (`week_4/app.py:64-71`); omitted fields
default to `None`. -/
structure BlogResponse where
  success : Bool
  topic : String
  language : Option String
  title : Option String
  content : Option String
  error : Option String
  deriving Repr, DecidableEq

/-- An HTTP outcome of `POST /blogs`: a 200 response carrying a
`BlogResponse` body, an `HTTPException` with a status and detail, or
FastAPI's automatic 422 rejection of a body that fails the request
model's validation. -/
inductive HttpOutcome where
  | ok (body : BlogResponse)
  | httpError (status : Nat) (detail : String)
  | unprocessable (status : Nat)
  deriving Repr, DecidableEq

/-- The handler body of `create_blog` (`week_4/app.py:84-144`).
`api_key` models `os.getenv("OPENAI_API_KEY")`: `OpenAILLM.get_llm`
raises `ValueError` when it is falsy.  `graphInvoke topic language`
models `graph.invoke({...})`, which may raise.  `except ValueError` maps
to HTTP 400, `except Exception` to HTTP 500. -/
def create_blog (api_key : Option String)
    (graphInvoke : String → String → Except HandlerExc GraphState)
    (r : BlogRequestInput) : HttpOutcome :=
  let run : Except HandlerExc BlogResponse :=
    if !(pyTruthy api_key) then
      .error (.valueError
        ("Error occurred while initializing OpenAI LLM: "
          ++ "OPENAI_API_KEY not found in environment variables. "
          ++ "Please set it in your .env file or environment."))
    else
      match graphInvoke r.topic r.language with
      | .error e => .error e
      | .ok state =>
          if pyTruthy state.error then
            .ok { success := false, topic := r.topic
                  language := some r.language, title := none
                  content := none, error := state.error }
          else
            let blog := state.blog.getD ⟨none, none, none⟩
            .ok { success := true, topic := r.topic
                  language := some (blog.language.getD r.language)
                  title := some (blog.title.getD "")
                  content := some (blog.content.getD "")
                  error := none }
  match run with
  | .ok body => .ok body
  | .error (.valueError m) => .httpError 400 m
  | .error (.otherExc m) => .httpError 500 ("Internal server error: " ++ m)

/-- The full `POST /blogs` endpoint: FastAPI validates the body against
the registered `BlogRequest` constraints first, rejecting failures with
status 422 before the handler runs, then dispatches to `create_blog`. -/
def postBlogs (api_key : Option String)
    (graphInvoke : String → String → Except HandlerExc GraphState)
    (r : BlogRequestInput) : HttpOutcome :=
  if !(registeredValidation r) then .unprocessable 422
  else create_blog api_key graphInvoke r

end Week4

/-! ### Helper lemmas -/

namespace Py

theorem pySliceLast_eq_rtake {α : Type} (n : Nat) (l : List α) :
    pySliceLast n l = l.rtake n := rfl

theorem pySliceLast_length {α : Type} (n : Nat) (l : List α) :
    (pySliceLast n l).length = min n l.length := by
  simp only [pySliceLast, List.length_drop]
  omega

theorem pySliceLast_suffix {α : Type} (n : Nat) (l : List α) :
    pySliceLast n l <:+ l :=
  ⟨l.take (l.length - n), List.take_append_drop _ l⟩

theorem pySliceLast_of_le {α : Type} {n : Nat} {l : List α}
    (h : l.length ≤ n) : pySliceLast n l = l := by
  simp only [pySliceLast, Nat.sub_eq_zero_of_le h, List.drop_zero]

theorem pySliceLast_append {α : Type} (n : Nat) (a b : List α) :
    pySliceLast n (pySliceLast n a ++ b) = pySliceLast n (a ++ b) := by
  simp only [pySliceLast_eq_rtake, List.rtake_eq_reverse_take_reverse,
    List.reverse_append, List.reverse_reverse, List.take_append_eq_append_take,
    List.take_take, List.length_reverse]
  rw [Nat.min_eq_left (Nat.sub_le n b.length)]

end Py

/-! ### C10: asymmetric quiz grading -/

/-- C10: `QuizManager.evaluate_quiz` grades asymmetrically by question
type: an entry of type `"MCQ"` is marked correct exactly when the user's
answer is string-equal to the stored correct answer, and an entry of any
other type (fill-in-the-blank) is marked correct exactly when the two
answers agree after stripping surrounding whitespace and lower-casing
both sides. -/
theorem evaluate_quiz_asymmetric_grading
    (questions : List StudyBuddy.QuizQuestion) (user_answers : List String)
    (r : StudyBuddy.QuizResult)
    (hr : r ∈ StudyBuddy.evaluate_quiz questions user_answers) :
    (r.question_type = "MCQ" →
      (r.is_correct = true ↔ r.user_answer = r.correct_answer)) ∧
    (r.question_type ≠ "MCQ" →
      (r.is_correct = true ↔
        Py.pyLower (Py.pyStrip r.user_answer)
          = Py.pyLower (Py.pyStrip r.correct_answer))) := by
  unfold StudyBuddy.evaluate_quiz at hr
  rw [List.mem_map] at hr
  obtain ⟨⟨i, q, ua⟩, _, rfl⟩ := hr
  unfold StudyBuddy.evaluateOne
  by_cases h : q.qtype == "MCQ"
  · simp only [h, if_pos]
    have hq : q.qtype = "MCQ" := by simpa using h
    refine ⟨fun _ => ?_, fun hne => absurd hq hne⟩
    simp
  · simp only [h, if_neg, Bool.false_eq_true, not_false_eq_true]
    have hq : q.qtype ≠ "MCQ" := by simpa using h
    refine ⟨fun habs => absurd habs hq, fun _ => ?_⟩
    simp

/-- Witness for C10: a concrete two-question quiz, graded; the
fill-blank row is marked by the case-insensitive rule. -/
theorem evaluate_quiz_asymmetric_grading_witness :
    (StudyBuddy.evaluateOne 1 ⟨"Fill in the blank", "q2 ___", [], "Paris"⟩
        "  PARIS "
      ∈ StudyBuddy.evaluate_quiz
        [⟨"MCQ", "q1", ["a", "b", "c", "d"], "a"⟩,
         ⟨"Fill in the blank", "q2 ___", [], "Paris"⟩]
        ["a", "  PARIS "]) ∧
    ((StudyBuddy.evaluateOne 1 ⟨"Fill in the blank", "q2 ___", [], "Paris"⟩
        "  PARIS ").is_correct = true ↔
      Py.pyLower (Py.pyStrip (StudyBuddy.evaluateOne 1
          ⟨"Fill in the blank", "q2 ___", [], "Paris"⟩
          "  PARIS ").user_answer)
        = Py.pyLower (Py.pyStrip (StudyBuddy.evaluateOne 1
            ⟨"Fill in the blank", "q2 ___", [], "Paris"⟩
            "  PARIS ").correct_answer)) :=
  ⟨by decide,
   (evaluate_quiz_asymmetric_grading
      [⟨"MCQ", "q1", ["a", "b", "c", "d"], "a"⟩,
       ⟨"Fill in the blank", "q2 ___", [], "Paris"⟩]
      ["a", "  PARIS "] _ (by decide)).2 (by decide)⟩

/-! ### C3: search returns at most k documents -/

/-- C3: for any similarity ranking (any permutation of the store),
`RAGSystem.search` returns exactly `min k (store size)` documents on
both store paths: never more than `k`, the full (smaller) store count
when the store holds fewer than `k` entries, and the empty list (not an
error) on an empty store. -/
theorem search_at_most_k (rank : String → List Week3.Entry → List Week3.Entry)
    (hrank : ∀ q s, (rank q s).Perm s) (st : Week3.StoreState)
    (query : String) (k : Nat) :
    (Week3.search rank st query k).length = min k (Week3.storeCount st) ∧
    (Week3.search rank st query k).length ≤ k ∧
    (Week3.storeCount st = 0 → Week3.search rank st query k = []) := by
  have hchroma : ∀ c : List Week3.Entry,
      (Week3.search rank (.chromaDefault c) query k).length
        = ((rank query c).take k).length := by
    intro c
    unfold Week3.search Week3.chromaQuery
    cases hr : (rank query c).take k with
    | nil => simp [hr]
    | cons a t => simp [hr]
  have hmain : (Week3.search rank st query k).length
      = min k (Week3.storeCount st) := by
    cases st with
    | chromaDefault c =>
        have hlen : (rank query c).length = c.length := (hrank query c).length_eq
        show (Week3.search rank (.chromaDefault c) query k).length = min k c.length
        rw [hchroma c, List.length_take, hlen]
    | langchain vs =>
        have hlen : (rank query vs.entries).length = vs.entries.length :=
          (hrank query vs.entries).length_eq
        show (Week3.lcSimilaritySearch rank vs query k).length
          = min k vs.entries.length
        simp [Week3.lcSimilaritySearch, hlen]
  refine ⟨hmain, ?_, ?_⟩
  · rw [hmain]; exact Nat.min_le_left _ _
  · intro h0
    have : (Week3.search rank st query k).length = 0 := by
      rw [hmain, h0]; simp
    exact List.eq_nil_of_length_eq_zero this

/-- Witness for C3: identity ranking, two-entry store, `k = 1`, and an
empty store. -/
theorem search_at_most_k_witness :
    (Week3.search (fun _ s => s)
        (.chromaDefault [⟨"i1", "t1", ⟨some "u1", none, none, none⟩⟩,
          ⟨"i2", "t2", ⟨some "u2", none, none, none⟩⟩]) "q" 1).length = 1 ∧
    Week3.search (fun _ s => s) (.chromaDefault []) "q" 4 = [] := by
  constructor
  · exact (search_at_most_k (fun _ s => s) (fun _ s => List.Perm.refl s)
      (.chromaDefault [⟨"i1", "t1", ⟨some "u1", none, none, none⟩⟩,
        ⟨"i2", "t2", ⟨some "u2", none, none, none⟩⟩]) "q" 1).1
  · exact (search_at_most_k (fun _ s => s) (fun _ s => List.Perm.refl s)
      (.chromaDefault []) "q" 4).2.2 rfl

/-! ### C5: delete_article -/

/-- C5 counterexample: deleting a source that was never indexed does not
return a removed count of 0 as a non-error result — the code returns a
`success: False` "Article not found in index" result carrying no
`chunks_deleted` count at all. -/
theorem delete_article_not_found_counterexample :
    ((Week3.delete_article
        (.chromaDefault [⟨"i1", "t1", ⟨some "u1", none, none, none⟩⟩])
        "never-indexed").2.success = false) ∧
    ((Week3.delete_article
        (.chromaDefault [⟨"i1", "t1", ⟨some "u1", none, none, none⟩⟩])
        "never-indexed").2.chunks_deleted = none) ∧
    ((Week3.delete_article
        (.chromaDefault [⟨"i1", "t1", ⟨some "u1", none, none, none⟩⟩])
        "never-indexed").2.message = "Article not found in index") := by
  refine ⟨rfl, rfl, rfl⟩

/-- Branch equation for `delete_article` when some id matches. -/
theorem delete_article_pos (st : Week3.StoreState) (url : String)
    (h : Week3.idsToDelete st.entries url ≠ []) :
    (Week3.delete_article st url).1.entries
      = st.entries.filter
          (fun e => !((Week3.idsToDelete st.entries url).contains e.id)) ∧
    (Week3.delete_article st url).2
      = { success := true
          message := "Deleted " ++ toString (Week3.idsToDelete st.entries url).length
            ++ " chunks from article"
          chunks_deleted := some (Week3.idsToDelete st.entries url).length
          error := none } := by
  have hcond : (Week3.idsToDelete st.entries url).isEmpty = false := by
    cases hI : Week3.idsToDelete st.entries url with
    | nil => exact absurd hI h
    | cons a as => rfl
  cases st with
  | chromaDefault c =>
      simp only [Week3.StoreState.entries] at hcond ⊢
      constructor <;>
        simp [Week3.delete_article, Week3.StoreState.entries, hcond]
  | langchain vs =>
      simp only [Week3.StoreState.entries] at hcond ⊢
      constructor <;>
        simp [Week3.delete_article, Week3.StoreState.entries, hcond]

/-- Branch equation for `delete_article` when no id matches. -/
theorem delete_article_neg (st : Week3.StoreState) (url : String)
    (h : Week3.idsToDelete st.entries url = []) :
    Week3.delete_article st url
      = (st, { success := false, message := "Article not found in index",
               chunks_deleted := none, error := none }) := by
  have hcond : (Week3.idsToDelete st.entries url).isEmpty = true := by
    rw [h]; rfl
  cases st with
  | chromaDefault c =>
      simp only [Week3.StoreState.entries] at hcond
      simp [Week3.delete_article, Week3.StoreState.entries, hcond]
  | langchain vs =>
      simp only [Week3.StoreState.entries] at hcond
      simp [Week3.delete_article, Week3.StoreState.entries, hcond]

/-- C5 (amended): assuming the store invariant that entry ids are
unique, `delete_article` removes all and only the entries whose metadata
source equals the given url; when some entry matches it reports the
count removed; when none matches it leaves the store unchanged and
returns a `success: False` "Article not found in index" result with no
removed count (rather than a non-error count-of-0 result). -/
theorem delete_article_spec (st : Week3.StoreState) (url : String)
    (hnd : (st.entries.map (·.id)).Nodup) :
    ((Week3.delete_article st url).1.entries
      = st.entries.filter (fun e => !(e.metadata.source == some url))) ∧
    (st.entries.filter (fun e => e.metadata.source == some url) ≠ [] →
      (Week3.delete_article st url).2.success = true ∧
      (Week3.delete_article st url).2.chunks_deleted
        = some (st.entries.filter
            (fun e => e.metadata.source == some url)).length) ∧
    (st.entries.filter (fun e => e.metadata.source == some url) = [] →
      (Week3.delete_article st url).1 = st ∧
      (Week3.delete_article st url).2
        = { success := false, message := "Article not found in index",
            chunks_deleted := none, error := none }) := by
  classical
  set hits := st.entries.filter (fun e => e.metadata.source == some url)
    with hhits
  by_cases hm : hits = []
  · have hids : Week3.idsToDelete st.entries url = [] := by
      simp [Week3.idsToDelete, ← hhits, hm]
    have hall : ∀ e ∈ st.entries, ¬(e.metadata.source == some url) = true := by
      rw [hhits] at hm
      exact fun e he => by
        have := List.filter_eq_nil_iff.mp hm e he
        simpa using this
    have hda := delete_article_neg st url hids
    refine ⟨?_, fun hne => absurd hm hne, fun _ => by simp [hda]⟩
    rw [hda]
    have : st.entries.filter (fun e => !(e.metadata.source == some url))
        = st.entries := by
      apply List.filter_eq_self.mpr
      intro e he
      simpa using hall e he
    simp [this]
  · have hids_ne : Week3.idsToDelete st.entries url ≠ [] := by
      simp only [Week3.idsToDelete, ← hhits]
      intro h
      exact hm (List.map_eq_nil_iff.mp h)
    have hpt : ∀ e ∈ st.entries,
        ((Week3.idsToDelete st.entries url).contains e.id)
          = (e.metadata.source == some url) := by
      intro e he
      by_cases hsrc : (e.metadata.source == some url) = true
      · rw [hsrc]
        have hmem : e ∈ hits := by
          rw [hhits]; exact List.mem_filter.mpr ⟨he, hsrc⟩
        have : e.id ∈ Week3.idsToDelete st.entries url := by
          simp only [Week3.idsToDelete, ← hhits]
          exact List.mem_map.mpr ⟨e, hmem, rfl⟩
        exact List.elem_iff.mpr this
      · rw [Bool.not_eq_true] at hsrc
        rw [hsrc]
        rw [Bool.eq_false_iff]
        intro habs
        have hidmem : e.id ∈ Week3.idsToDelete st.entries url :=
          List.elem_iff.mp habs
        simp only [Week3.idsToDelete, ← hhits] at hidmem
        obtain ⟨e2, he2, hide⟩ := List.mem_map.mp hidmem
        have he2ent : e2 ∈ st.entries := (List.mem_filter.mp he2).1
        have he2src : (e2.metadata.source == some url) = true :=
          (List.mem_filter.mp he2).2
        have heq : e2 = e := List.inj_on_of_nodup_map hnd he2ent he hide
        rw [heq] at he2src
        rw [he2src] at hsrc
        exact Bool.noConfusion hsrc
    have hfilter : st.entries.filter
        (fun e => !((Week3.idsToDelete st.entries url).contains e.id))
        = st.entries.filter (fun e => !(e.metadata.source == some url)) :=
      List.filter_congr (fun e he => by rw [hpt e he])
    have hcount : (Week3.idsToDelete st.entries url).length = hits.length := by
      simp [Week3.idsToDelete, ← hhits]
    have hpos := delete_article_pos st url hids_ne
    refine ⟨?_, fun _ => ⟨?_, ?_⟩, fun habs => absurd habs hm⟩
    · rw [hpos.1, hfilter]
    · rw [hpos.2]
    · rw [hpos.2]
      simp only [hcount, hhits]

/-- Witness for C5: a two-entry store with unique ids; deleting source
`"u1"` removes exactly the matching entry and reports count 1. -/
theorem delete_article_spec_witness :
    ((([⟨"i1", "t1", ⟨some "u1", none, none, none⟩⟩,
        ⟨"i2", "t2", ⟨some "u2", none, none, none⟩⟩] :
          List Week3.Entry).map (·.id)).Nodup) ∧
    (Week3.delete_article
      (.chromaDefault [⟨"i1", "t1", ⟨some "u1", none, none, none⟩⟩,
        ⟨"i2", "t2", ⟨some "u2", none, none, none⟩⟩]) "u1").2.chunks_deleted
      = some 1 := by
  refine ⟨by decide, ?_⟩
  have h := (delete_article_spec
    (.chromaDefault [⟨"i1", "t1", ⟨some "u1", none, none, none⟩⟩,
      ⟨"i2", "t2", ⟨some "u2", none, none, none⟩⟩]) "u1" (by decide)).2.1
    (by decide)
  exact h.2

/-! ### C7: provider construction fails fast, but detect_provider falls back -/

/-- C7 counterexample: `detect_provider` silently falls back to the
default provider "openai" for a model name matching no supported model
of either provider (and no `gpt`/`llama`/`mixtral` pattern), instead of
failing. -/
theorem detect_provider_fallback_counterexample :
    (Week3.openaiModels.any (fun m =>
        Py.strContains "custom-model-123" (Py.pyLower m)
          || Py.pyStartsWith "custom-model-123" "gpt") = false) ∧
    (Week3.groqModels.any (fun m =>
        Py.strContains "custom-model-123" (Py.pyLower m)
          || Py.strContains "custom-model-123" "llama"
          || Py.strContains "custom-model-123" "mixtral") = false) ∧
    Week3.detect_provider "custom-model-123" = "openai" := by
  refine ⟨by decide, by decide, by decide⟩

/-- C7 (amended): `create_llm` does fail fast — a falsy API key yields
the "API key is required" error, an unsupported provider name yields the
enum lookup's `ValueError`, and a successful construction is only
possible for provider names whose lower-casing is "openai" or "groq";
`detect_provider`, however, is not fail-fast (see the counterexample). -/
theorem create_llm_fails_fast (provider model_name : String)
    (api_key : Option String) :
    (Py.pyTruthy api_key = false →
      Week3.create_llm provider model_name api_key
        = .error ("API key is required for " ++ provider)) ∧
    (Py.pyTruthy api_key = true →
      Week3.llmProviderOfValue (Py.pyLower provider) = none →
      Week3.create_llm provider model_name api_key
        = .error ("'" ++ Py.pyLower provider ++ "' is not a valid LLMProvider")) ∧
    (∀ inst, Week3.create_llm provider model_name api_key = .ok inst →
      Py.pyLower provider = "openai" ∨ Py.pyLower provider = "groq") := by
  refine ⟨?_, ?_, ?_⟩
  · intro hk
    unfold Week3.create_llm
    rw [hk]
    rfl
  · intro hk hp
    unfold Week3.create_llm
    rw [hk, hp]
    rfl
  · intro inst hok
    unfold Week3.create_llm at hok
    by_cases hk : Py.pyTruthy api_key
    · rw [hk] at hok
      simp only [Bool.not_true, Bool.false_eq_true, if_false] at hok
      unfold Week3.llmProviderOfValue at hok
      by_cases h1 : Py.pyLower provider == "openai"
      · exact Or.inl (by simpa using h1)
      · by_cases h2 : Py.pyLower provider == "groq"
        · exact Or.inr (by simpa using h2)
        · rw [if_neg (by simpa using h1), if_neg (by simpa using h2)] at hok
          exact absurd hok (by simp)
    · rw [Bool.not_eq_true] at hk
      rw [hk] at hok
      exact absurd hok (by simp)

/-- Witness for C7: missing key for "openai"; unsupported provider
"foo"; successful construction for "groq". -/
theorem create_llm_fails_fast_witness :
    (Py.pyTruthy (none : Option String) = false ∧
      Week3.create_llm "openai" "gpt-5" none
        = .error ("API key is required for " ++ "openai")) ∧
    (Py.pyTruthy (some "sk-1") = true ∧
      Week3.llmProviderOfValue (Py.pyLower "foo") = none ∧
      Week3.create_llm "foo" "m" (some "sk-1")
        = .error ("'" ++ Py.pyLower "foo" ++ "' is not a valid LLMProvider")) ∧
    (Py.pyLower "groq" = "openai" ∨ Py.pyLower "groq" = "groq") := by
  refine ⟨⟨by decide, ?_⟩, ⟨by decide, by decide, ?_⟩, ?_⟩
  · exact (create_llm_fails_fast "openai" "gpt-5" none).1 (by decide)
  · exact (create_llm_fails_fast "foo" "m" (some "sk-1")).2.1
      (by decide) (by decide)
  · exact (create_llm_fails_fast "groq" "m" (some "sk-1")).2.2
      (.chatGroq "m" "sk-1") rfl

/-! ### C8: blog endpoint validation and status codes -/

/-- C8 counterexample: a request whose model "gpt-4" is not in
`{"gpt-5", "gpt-5-mini"}` is not rejected with HTTP 400 before
generation — `validate_model` is never registered as a pydantic
validator, so the request passes validation, generation runs, and the
endpoint answers 200; moreover a too-short topic is rejected with
status 422, not 400. -/
theorem postBlogs_counterexample :
    Week4.postBlogs (some "sk-key")
      (fun _ _ => .ok ⟨none, some ⟨some "English", some "T", some "C"⟩⟩)
      ⟨"a valid topic", "English", "gpt-4", 1⟩
      = .ok { success := true, topic := "a valid topic",
              language := some "English", title := some "T",
              content := some "C", error := none } ∧
    Week4.postBlogs (some "sk-key")
      (fun _ _ => .ok ⟨none, some ⟨some "English", some "T", some "C"⟩⟩)
      ⟨"ab", "English", "gpt-5", 1⟩
      = .unprocessable 422 := by
  constructor <;> rfl

/-- C8 (amended): requests failing the registered request-model
constraints (topic shorter than 3 characters or temperature outside
[0, 2]) are rejected before the handler with status 422 (not 400); the
model field is not validated before generation; a `ValueError` inside
the handler (e.g. missing API key) yields 400; any other handler
exception yields 500; and a 200 response carries a `BlogResponse` body
with the request's topic and, on success, present language, title and
content fields and no error. -/
theorem postBlogs_status_codes (api_key : Option String)
    (graphInvoke : String → String → Except Week4.HandlerExc Week4.GraphState)
    (r : Week4.BlogRequestInput) :
    (Week4.registeredValidation r = false →
      Week4.postBlogs api_key graphInvoke r = .unprocessable 422) ∧
    (Week4.registeredValidation r = true → Py.pyTruthy api_key = false →
      Week4.postBlogs api_key graphInvoke r
        = .httpError 400
            ("Error occurred while initializing OpenAI LLM: "
              ++ "OPENAI_API_KEY not found in environment variables. "
              ++ "Please set it in your .env file or environment.")) ∧
    (Week4.registeredValidation r = true → Py.pyTruthy api_key = true →
      ∀ m, graphInvoke r.topic r.language = .error (.otherExc m) →
        Week4.postBlogs api_key graphInvoke r
          = .httpError 500 ("Internal server error: " ++ m)) ∧
    (Week4.registeredValidation r = true → Py.pyTruthy api_key = true →
      ∀ m, graphInvoke r.topic r.language = .error (.valueError m) →
        Week4.postBlogs api_key graphInvoke r = .httpError 400 m) ∧
    (∀ body, Week4.postBlogs api_key graphInvoke r = .ok body →
      body.topic = r.topic ∧
      (body.success = true →
        body.language.isSome = true ∧ body.title.isSome = true ∧
        body.content.isSome = true ∧ body.error = none)) := by
  refine ⟨?_, ?_, ?_, ?_, ?_⟩
  · intro hv
    unfold Week4.postBlogs
    simp [hv]
  · intro hv hk
    unfold Week4.postBlogs Week4.create_blog
    simp [hv, hk]
  · intro hv hk m hg
    unfold Week4.postBlogs Week4.create_blog
    simp [hv, hk, hg]
  · intro hv hk m hg
    unfold Week4.postBlogs Week4.create_blog
    simp [hv, hk, hg]
  · intro body hok
    unfold Week4.postBlogs Week4.create_blog at hok
    by_cases hv : Week4.registeredValidation r = true
    · by_cases hk : Py.pyTruthy api_key = true
      · cases hg : graphInvoke r.topic r.language with
        | error e => cases e <;> simp [hv, hk, hg] at hok
        | ok state =>
            by_cases hes : Py.pyTruthy state.error = true
            · simp [hv, hk, hg, hes] at hok
              subst hok
              simp
            · rw [Bool.not_eq_true] at hes
              simp [hv, hk, hg, hes] at hok
              subst hok
              simp
      · rw [Bool.not_eq_true] at hk
        simp [hv, hk] at hok
    · rw [Bool.not_eq_true] at hv
      simp [hv] at hok

/-- Witness for C8: both validation rejection and the two error paths,
at concrete inputs. -/
theorem postBlogs_status_codes_witness :
    (Week4.registeredValidation ⟨"ab", "English", "gpt-5", 1⟩ = false ∧
      Week4.postBlogs (some "sk")
        (fun _ _ => .ok ⟨none, none⟩) ⟨"ab", "English", "gpt-5", 1⟩
        = .unprocessable 422) ∧
    (Week4.registeredValidation ⟨"abc", "English", "gpt-5", 1⟩ = true ∧
      Week4.postBlogs (some "sk")
        (fun _ _ => .error (.otherExc "boom")) ⟨"abc", "English", "gpt-5", 1⟩
        = .httpError 500 ("Internal server error: " ++ "boom")) := by
  refine ⟨⟨by decide, ?_⟩, ⟨by decide, ?_⟩⟩
  · exact (postBlogs_status_codes (some "sk")
      (fun _ _ => .ok ⟨none, none⟩) ⟨"ab", "English", "gpt-5", 1⟩).1 (by decide)
  · exact (postBlogs_status_codes (some "sk")
      (fun _ _ => .error (.otherExc "boom"))
      ⟨"abc", "English", "gpt-5", 1⟩).2.2.1 (by decide) (by decide)
      "boom" rfl

/-! ### C2: chat never throws past its boundary; empty retrieval short-circuits -/

/-- C2: `RAGSystem.chat` converts every stage failure into a structured
`success: false` result with an error message instead of raising: a
failing retrieval and a failing LLM call both yield `chatExcResult`; an
unsuccessful result always carries an error message; and when retrieval
returns no documents, chat short-circuits to the "No relevant documents
found" failure — the result is then the same for every LLM function, so
the LLM is never consulted and no answer is fabricated. -/
theorem chat_structured_failure
    (prompt_of : String → String → String → String → String × String)
    (llm : String × String → Except String String)
    (searchRes : Except String (List Week3.Document))
    (query : String) (chat_history : Option (List Week3.ChatMessage))
    (content_type : String) :
    ((Week3.chat prompt_of llm searchRes query chat_history
        content_type).success = false →
      (Week3.chat prompt_of llm searchRes query chat_history
        content_type).error.isSome = true) ∧
    (∀ e, searchRes = .error e →
      Week3.chat prompt_of llm searchRes query chat_history content_type
        = Week3.chatExcResult e) ∧
    (∀ e docs, searchRes = .ok docs → docs ≠ [] →
      (∀ msgs, llm msgs = .error e) →
      Week3.chat prompt_of llm searchRes query chat_history content_type
        = Week3.chatExcResult e) ∧
    (searchRes = .ok [] →
      Week3.chat prompt_of llm searchRes query chat_history content_type
        = { success := false, summary := ""
            error := some "No relevant documents found"
            num_chunks_retrieved := none, references := none } ∧
      ∀ llm2 : String × String → Except String String,
        Week3.chat prompt_of llm2 searchRes query chat_history content_type
          = Week3.chat prompt_of llm searchRes query chat_history
              content_type) := by
  refine ⟨?_, ?_, ?_, ?_⟩
  · intro hfail
    unfold Week3.chat at hfail ⊢
    cases searchRes with
    | error e => simp [Week3.chatExcResult]
    | ok docs =>
        cases docs with
        | nil => simp
        | cons d ds =>
            simp only [List.isEmpty_cons, Bool.false_eq_true, if_false] at hfail ⊢
            cases hl : llm (prompt_of content_type
                (if Week3.conversationContext
                      ((chat_history.getD []) : List Week3.ChatMessage) == ""
                  then "No previous conversation."
                  else Week3.conversationContext (chat_history.getD []))
                (Week3.contextOf (d :: ds)) query) with
            | error e => simp [hl, Week3.chatExcResult]
            | ok content =>
                rw [hl] at hfail
                simp at hfail
  · intro e he
    subst he
    rfl
  · intro e docs hs hne hllm
    subst hs
    unfold Week3.chat
    cases docs with
    | nil => exact absurd rfl hne
    | cons d ds =>
        simp only [List.isEmpty_cons, Bool.false_eq_true, if_false]
        rw [hllm]
  · intro hs
    subst hs
    exact ⟨rfl, fun llm2 => rfl⟩

/-- Witness for C2: a failing LLM on a one-document retrieval, and the
empty retrieval, at concrete inputs. -/
theorem chat_structured_failure_witness :
    ((Except.ok [(⟨"txt", ⟨some "u", some "t", none, none⟩⟩ : Week3.Document)]
        : Except String (List Week3.Document))
      = .ok [⟨"txt", ⟨some "u", some "t", none, none⟩⟩] ∧
     Week3.chat (fun _ c ctx q => (c, ctx ++ q)) (fun _ => .error "llm down")
        (.ok [⟨"txt", ⟨some "u", some "t", none, none⟩⟩]) "q" none "news"
        = Week3.chatExcResult "llm down") ∧
    Week3.chat (fun _ c ctx q => (c, ctx ++ q)) (fun _ => .ok "made up")
      (.ok []) "q" none "news"
      = { success := false, summary := ""
          error := some "No relevant documents found"
          num_chunks_retrieved := none, references := none } := by
  refine ⟨⟨rfl, ?_⟩, ?_⟩
  · exact (chat_structured_failure (fun _ c ctx q => (c, ctx ++ q))
      (fun _ => .error "llm down")
      (.ok [⟨"txt", ⟨some "u", some "t", none, none⟩⟩]) "q" none
      "news").2.2.1 "llm down" [⟨"txt", ⟨some "u", some "t", none, none⟩⟩]
      rfl (by simp) (fun _ => rfl)
  · exact ((chat_structured_failure (fun _ c ctx q => (c, ctx ++ q))
      (fun _ => .ok "made up") (.ok []) "q" none "news").2.2.2 rfl).1

/-! ### C4: re-indexing the same documents -/

/-- Id presence in a store is preserved by `chromaAdd`. -/
theorem chromaAdd_any_mono (es : List Week3.Entry) (s : List Week3.Entry)
    (x : String) (h : s.any (fun e => e.id == x) = true) :
    (Week3.chromaAdd s es).any (fun e => e.id == x) = true := by
  induction es generalizing s with
  | nil => exact h
  | cons e rest ih =>
      unfold Week3.chromaAdd
      simp only [List.foldl_cons]
      by_cases hc : s.any (fun y => y.id == e.id) = true
      · rw [if_pos hc]
        exact ih s h
      · rw [if_neg hc]
        apply ih
        simp only [List.any_append, h, Bool.true_or]

/-- After `chromaAdd s es`, the id of every entry of `es` is present. -/
theorem chromaAdd_mem_ids (es : List Week3.Entry) (s : List Week3.Entry)
    (e : Week3.Entry) (he : e ∈ es) :
    (Week3.chromaAdd s es).any (fun y => y.id == e.id) = true := by
  induction es generalizing s with
  | nil => cases he
  | cons a rest ih =>
      unfold Week3.chromaAdd
      simp only [List.foldl_cons]
      rcases List.mem_cons.mp he with rfl | hrest
      · by_cases hc : s.any (fun y => y.id == e.id) = true
        · rw [if_pos hc]
          exact chromaAdd_any_mono rest s e.id hc
        · rw [if_neg hc]
          apply chromaAdd_any_mono
          simp
      · by_cases hc : s.any (fun y => y.id == a.id) = true
        · rw [if_pos hc]
          exact ih s hrest
        · rw [if_neg hc]
          exact ih (s ++ [a]) hrest

/-- `chromaAdd` is the identity when every incoming id is already
present. -/
theorem chromaAdd_skip_all (es : List Week3.Entry) (s : List Week3.Entry)
    (h : ∀ e ∈ es, s.any (fun y => y.id == e.id) = true) :
    Week3.chromaAdd s es = s := by
  induction es generalizing s with
  | nil => rfl
  | cons e rest ih =>
      unfold Week3.chromaAdd
      simp only [List.foldl_cons]
      rw [if_pos (h e (List.mem_cons_self e rest))]
      exact ih s (fun x hx => h x (List.mem_cons_of_mem e hx))

/-- Adding the same batch twice leaves the Chroma collection exactly as
after the first add. -/
theorem chromaAdd_idem (s : List Week3.Entry) (es : List Week3.Entry) :
    Week3.chromaAdd (Week3.chromaAdd s es) es = Week3.chromaAdd s es :=
  chromaAdd_skip_all es (Week3.chromaAdd s es)
    (fun e he => chromaAdd_mem_ids es s e he)

/-- C4 counterexample: on the chroma_default path, indexing the same
one-document list a second time does not increase the entry count — the
deterministic ids `doc_{i}_{hash(content)}` repeat, and the store's id
uniqueness makes the second add a no-op (here with `hash` instantiated
to the string length; the ids repeat for every hash function, the id
depending only on position and content). -/
theorem add_documents_rerun_counterexample :
    ¬ (Week3.storeCount
        (Week3._add_documents (fun s => (s.length : Int))
          (Week3._add_documents (fun s => (s.length : Int))
            (.chromaDefault [])
            [⟨"hello", ⟨some "u", some "t", none, none⟩⟩])
          [⟨"hello", ⟨some "u", some "t", none, none⟩⟩])
      > Week3.storeCount
          (Week3._add_documents (fun s => (s.length : Int))
            (.chromaDefault [])
            [⟨"hello", ⟨some "u", some "t", none, none⟩⟩])) := by
  decide

/-- C4 (amended): on the LangChain path, re-indexing a non-empty
document list strictly increases the store's entry count (fresh UUIDs
are generated on every call); on the chroma_default path, re-indexing
the same document list leaves the store exactly unchanged, because the
ids `doc_{i}_{hash(content)}` are the same on both calls and the
collection enforces id uniqueness. -/
theorem add_documents_rerun (pyHash : String → Int)
    (docs : List Week3.Document) (c : List Week3.Entry)
    (vs : Week3.LCStore) :
    (Week3._add_documents pyHash
        (Week3._add_documents pyHash (.chromaDefault c) docs) docs
      = Week3._add_documents pyHash (.chromaDefault c) docs) ∧
    (docs ≠ [] →
      Week3.storeCount
          (Week3._add_documents pyHash
            (Week3._add_documents pyHash (.langchain vs) docs) docs)
        > Week3.storeCount
            (Week3._add_documents pyHash (.langchain vs) docs)) := by
  constructor
  · show Week3.StoreState.chromaDefault _ = Week3.StoreState.chromaDefault _
    rw [chromaAdd_idem]
  · intro hne
    have hlen : 0 < docs.length := List.length_pos.mpr hne
    show (Week3.lcAddDocuments (Week3.lcAddDocuments vs docs) docs).entries.length
      > (Week3.lcAddDocuments vs docs).entries.length
    simp only [Week3.lcAddDocuments, List.length_append, List.length_map,
      List.enum_length]
    omega

/-- Witness for C4 (amended): one document, LangChain path. -/
theorem add_documents_rerun_witness :
    ([(⟨"hello", ⟨some "u", some "t", none, none⟩⟩ : Week3.Document)] ≠ []) ∧
    Week3.storeCount
        (Week3._add_documents (fun s => (s.length : Int))
          (Week3._add_documents (fun s => (s.length : Int))
            (.langchain ⟨[], 0⟩)
            [⟨"hello", ⟨some "u", some "t", none, none⟩⟩])
          [⟨"hello", ⟨some "u", some "t", none, none⟩⟩])
      > Week3.storeCount
          (Week3._add_documents (fun s => (s.length : Int))
            (.langchain ⟨[], 0⟩)
            [⟨"hello", ⟨some "u", some "t", none, none⟩⟩]) :=
  ⟨by decide,
   (add_documents_rerun (fun s => (s.length : Int))
      [⟨"hello", ⟨some "u", some "t", none, none⟩⟩] [] ⟨[], 0⟩).2
      (by decide)⟩

/-! ### C6: bounded conversation history -/

/-- One chat exchange always leaves exactly the last `HISTORY_BOUND`
messages of the appended stream. -/
theorem historyStep_eq_pySliceLast (history : List Week3.ChatMessage)
    (prompt response : String) :
    CustomerChatbot.historyStep history prompt response
      = Py.pySliceLast CustomerChatbot.HISTORY_BOUND
          (history ++ CustomerChatbot.exchangeMsgs prompt response) := by
  unfold CustomerChatbot.historyStep
  by_cases h : (history ++ CustomerChatbot.exchangeMsgs prompt response).length
      > CustomerChatbot.HISTORY_BOUND
  · rw [if_pos h]
  · rw [if_neg h]
    exact (Py.pySliceLast_of_le (Nat.le_of_not_lt h)).symm

/-- The session fold keeps the last `HISTORY_BOUND` messages of the full
stream, for any start below the bound. -/
theorem runSession_fold (exchanges : List (String × String))
    (h : List Week3.ChatMessage)
    (hlen : h.length ≤ CustomerChatbot.HISTORY_BOUND) :
    exchanges.foldl (fun acc e => CustomerChatbot.historyStep acc e.1 e.2) h
      = Py.pySliceLast CustomerChatbot.HISTORY_BOUND
          (h ++ (exchanges.map
              (fun e => CustomerChatbot.exchangeMsgs e.1 e.2)).flatten) := by
  induction exchanges generalizing h with
  | nil =>
      simp only [List.foldl_nil, List.map_nil, List.flatten_nil,
        List.append_nil]
      exact (Py.pySliceLast_of_le hlen).symm
  | cons e rest ih =>
      simp only [List.foldl_cons, List.map_cons, List.flatten_cons]
      rw [historyStep_eq_pySliceLast]
      rw [ih _ (by
        rw [Py.pySliceLast_length]
        exact Nat.min_le_left _ _)]
      rw [Py.pySliceLast_append]
      rw [List.append_assoc]

/-- C6: conversation history is a bounded most-recent window: after any
sequence of chat exchanges the retained history is exactly the last 20
messages of the full appended stream — never longer than 20 and always
a suffix (the most recent turns, in original order); and the RAG
orchestrator's prompt renders exactly the last 6 history messages,
oldest-first. -/
theorem history_bounded_most_recent (exchanges : List (String × String))
    (history : List Week3.ChatMessage) :
    CustomerChatbot.runSession exchanges
      = Py.pySliceLast CustomerChatbot.HISTORY_BOUND
          (CustomerChatbot.allMsgs exchanges) ∧
    (CustomerChatbot.runSession exchanges).length
      ≤ CustomerChatbot.HISTORY_BOUND ∧
    CustomerChatbot.runSession exchanges <:+ CustomerChatbot.allMsgs exchanges ∧
    Week3.conversationContext history
      = String.join ((Py.pySliceLast 6 history).map Week3.renderMsg) ∧
    (Py.pySliceLast 6 history).length ≤ 6 ∧
    Py.pySliceLast 6 history <:+ history := by
  have hmain : CustomerChatbot.runSession exchanges
      = Py.pySliceLast CustomerChatbot.HISTORY_BOUND
          (CustomerChatbot.allMsgs exchanges) := by
    unfold CustomerChatbot.runSession CustomerChatbot.allMsgs
    rw [runSession_fold exchanges [] (by simp [CustomerChatbot.HISTORY_BOUND])]
    rw [List.nil_append]
  refine ⟨hmain, ?_, ?_, ?_, ?_, ?_⟩
  · rw [hmain, Py.pySliceLast_length]
    exact Nat.min_le_left _ _
  · rw [hmain]
    exact Py.pySliceLast_suffix _ _
  · unfold Week3.conversationContext
    cases history with
    | nil => rfl
    | cons m rest => rfl
  · rw [Py.pySliceLast_length]
    exact Nat.min_le_left _ _
  · exact Py.pySliceLast_suffix _ _

/-! ### C9: reference extraction -/

/-- The seen-set loop of `extractRefs` agrees with the first-occurrence
specification `refsOf` on the documents not yet seen. -/
theorem extractRefs_eq_refsOf_filter (docs : List Week3.Document)
    (seen : List String) :
    Week3.extractRefs docs seen
      = Week3.refsOf (docs.filter (fun x =>
          !(Py.pyTruthy x.metadata.source
            && seen.contains (x.metadata.source.getD "")))) := by
  induction docs generalizing seen with
  | nil => simp [Week3.extractRefs, Week3.refsOf]
  | cons d rest ih =>
      by_cases ht : Py.pyTruthy d.metadata.source = true
      · obtain ⟨sv, hsv, hne⟩ : ∃ sv, d.metadata.source = some sv ∧ sv ≠ "" := by
          cases hs : d.metadata.source with
          | none => rw [hs] at ht; exact absurd ht (by simp [Py.pyTruthy])
          | some t =>
              refine ⟨t, rfl, ?_⟩
              rw [hs] at ht
              simpa [Py.pyTruthy] using ht
        by_cases hc : seen.contains (d.metadata.source.getD "") = true
        · -- already seen: extractRefs skips d, the filter drops d
          unfold Week3.extractRefs
          rw [if_neg (by rw [ht, hc]; decide)]
          rw [List.filter_cons_of_neg (by rw [ht, hc]; decide)]
          exact ih seen
        · -- first occurrence: both keep d
          rw [Bool.not_eq_true] at hc
          unfold Week3.extractRefs
          rw [if_pos (by rw [ht, hc]; decide)]
          rw [List.filter_cons_of_pos (by rw [ht, hc]; decide)]
          unfold Week3.refsOf
          rw [if_pos ht]
          refine congrArg (Week3.mkRef d :: ·) ?_
          rw [ih (d.metadata.source.getD "" :: seen)]
          refine congrArg Week3.refsOf ?_
          rw [List.filter_filter]
          refine (List.filter_congr fun x _ => ?_).symm
          rw [hsv]
          cases hx : x.metadata.source with
          | none => simp [Py.pyTruthy]
          | some t =>
              by_cases hte : t = ""
              · subst hte
                simp [Py.pyTruthy, Ne.symm hne]
              · simp only [Py.pyTruthy, Option.getD_some, List.contains_cons]
                have h1 : (t != "") = true := by simpa using hte
                rw [hsv] at hc
                simp only [Option.getD_some] at hc
                by_cases h2 : t = sv
                · subst h2
                  simp [hc, h1]
                · have h3 : (some t != some sv) = true := by simpa using h2
                  have h4 : (t == sv) = false := by simpa using h2
                  simp [h1, h3, h4]
      · -- falsy source: extractRefs skips d, the filter keeps d, refsOf skips it
        rw [Bool.not_eq_true] at ht
        unfold Week3.extractRefs
        rw [if_neg (by rw [ht]; simp)]
        rw [List.filter_cons_of_pos (by rw [ht]; simp)]
        unfold Week3.refsOf
        rw [if_neg (by rw [ht]; simp)]
        exact ih seen

/-- Every reference produced by `refsOf` points at the source of one of
the input documents. -/
theorem refsOf_url_mem (n : Nat) (docs : List Week3.Document)
    (hn : docs.length ≤ n) (r : Week3.Reference)
    (hr : r ∈ Week3.refsOf docs) :
    ∃ d ∈ docs, d.metadata.source = some r.url := by
  induction n generalizing docs with
  | zero =>
      have : docs = [] := List.eq_nil_of_length_eq_zero (Nat.le_zero.mp hn)
      subst this
      simp [Week3.refsOf] at hr
  | succ n ih =>
      cases docs with
      | nil => simp [Week3.refsOf] at hr
      | cons d rest =>
          by_cases ht : Py.pyTruthy d.metadata.source = true
          · unfold Week3.refsOf at hr
            rw [if_pos ht] at hr
            rcases List.mem_cons.mp hr with rfl | htail
            · refine ⟨d, List.mem_cons_self d rest, ?_⟩
              cases hs : d.metadata.source with
              | none => rw [hs] at ht; exact absurd ht (by simp [Py.pyTruthy])
              | some t => simp [Week3.mkRef, hs]
            · have hlen : (rest.filter (fun x =>
                  x.metadata.source != d.metadata.source)).length ≤ n := by
                have h1 := List.length_filter_le
                  (fun x => x.metadata.source != d.metadata.source) rest
                have h2 : rest.length ≤ n := by
                  simpa using Nat.le_of_succ_le_succ hn
                omega
              obtain ⟨d2, hd2, hsrc⟩ := ih _ hlen htail
              exact ⟨d2, List.mem_cons_of_mem d (List.mem_of_mem_filter hd2),
                hsrc⟩
          · unfold Week3.refsOf at hr
            rw [if_neg ht] at hr
            have h2 : rest.length ≤ n := by
              simpa using Nat.le_of_succ_le_succ hn
            obtain ⟨d2, hd2, hsrc⟩ := ih rest h2 hr
            exact ⟨d2, List.mem_cons_of_mem d hd2, hsrc⟩

/-- The reference urls produced by `refsOf` are pairwise distinct. -/
theorem refsOf_urls_nodup_aux (n : Nat) (docs : List Week3.Document)
    (hn : docs.length ≤ n) :
    ((Week3.refsOf docs).map (fun r => r.url)).Nodup := by
  induction n generalizing docs with
  | zero =>
      have : docs = [] := List.eq_nil_of_length_eq_zero (Nat.le_zero.mp hn)
      subst this
      simp [Week3.refsOf]
  | succ n ih =>
      cases docs with
      | nil => simp [Week3.refsOf]
      | cons d rest =>
          have hrest : rest.length ≤ n := by
            simpa using Nat.le_of_succ_le_succ hn
          by_cases ht : Py.pyTruthy d.metadata.source = true
          · obtain ⟨sv, hsv, hne⟩ : ∃ sv, d.metadata.source = some sv ∧ sv ≠ "" := by
              cases hs : d.metadata.source with
              | none => rw [hs] at ht; exact absurd ht (by simp [Py.pyTruthy])
              | some t =>
                  refine ⟨t, rfl, ?_⟩
                  rw [hs] at ht
                  simpa [Py.pyTruthy] using ht
            unfold Week3.refsOf
            rw [if_pos ht]
            rw [List.map_cons]
            refine List.nodup_cons.mpr ⟨?_, ?_⟩
            · intro hmem
              rw [List.mem_map] at hmem
              obtain ⟨r, hr, hurl⟩ := hmem
              have hfl : (rest.filter (fun x =>
                  x.metadata.source != d.metadata.source)).length ≤ n := by
                have := List.length_filter_le
                  (fun x => x.metadata.source != d.metadata.source) rest
                omega
              obtain ⟨d2, hd2, hsrc⟩ := refsOf_url_mem n _ hfl r hr
              have hd2f := List.of_mem_filter hd2
              rw [hsrc] at hd2f
              rw [hurl] at hd2f
              rw [Week3.mkRef] at hd2f
              simp [hsv] at hd2f
            · refine ih _ (by
                have := List.length_filter_le
                  (fun x => x.metadata.source != d.metadata.source) rest
                omega)
          · unfold Week3.refsOf
            rw [if_neg ht]
            exact ih rest hrest

/-- C9: the references of a successful `RAGSystem.chat` call are
`refsOf` of the retrieved chunks — one entry per distinct (non-empty)
source, in first-occurrence order, each entry built from the first chunk
carrying that source (chunks with a falsy source are omitted); the
resulting urls are pairwise distinct. -/
theorem chat_references_first_occurrence
    (prompt_of : String → String → String → String → String × String)
    (llm : String × String → Except String String)
    (searchRes : Except String (List Week3.Document))
    (query : String) (chat_history : Option (List Week3.ChatMessage))
    (content_type : String) (docs : List Week3.Document) :
    (Week3.extractRefs docs [] = Week3.refsOf docs) ∧
    ((Week3.refsOf docs).map (fun r => r.url)).Nodup ∧
    (searchRes = .ok docs →
      (Week3.chat prompt_of llm searchRes query chat_history
        content_type).success = true →
      (Week3.chat prompt_of llm searchRes query chat_history
        content_type).references = some (Week3.refsOf docs)) := by
  have hmain : Week3.extractRefs docs [] = Week3.refsOf docs := by
    rw [extractRefs_eq_refsOf_filter]
    refine congrArg Week3.refsOf ?_
    apply List.filter_eq_self.mpr
    intro x _
    simp
  refine ⟨hmain, refsOf_urls_nodup_aux docs.length docs (Nat.le_refl _), ?_⟩
  intro hs hsucc
  subst hs
  cases docs with
  | nil => simp [Week3.chat] at hsucc
  | cons d ds =>
      unfold Week3.chat at hsucc ⊢
      simp only [List.isEmpty_cons, Bool.false_eq_true, if_false] at hsucc ⊢
      cases hl : llm (prompt_of content_type
          (if Week3.conversationContext
                ((chat_history.getD []) : List Week3.ChatMessage) == ""
            then "No previous conversation."
            else Week3.conversationContext (chat_history.getD []))
          (Week3.contextOf (d :: ds)) query) with
      | error e =>
          rw [hl] at hsucc
          simp [Week3.chatExcResult] at hsucc
      | ok content =>
          simpa using hmain

/-- Witness for C9: one retrieved chunk with a source; the successful
chat call returns exactly that single reference. -/
theorem chat_references_first_occurrence_witness :
    ((Except.ok [(⟨"txt", ⟨some "u", some "t", none, none⟩⟩ : Week3.Document)]
        : Except String (List Week3.Document))
      = .ok [⟨"txt", ⟨some "u", some "t", none, none⟩⟩]) ∧
    ((Week3.chat (fun _ c ctx q => (c, ctx ++ q)) (fun _ => .ok "summary")
        (.ok [⟨"txt", ⟨some "u", some "t", none, none⟩⟩]) "q" none
        "news").success = true) ∧
    ((Week3.chat (fun _ c ctx q => (c, ctx ++ q)) (fun _ => .ok "summary")
        (.ok [⟨"txt", ⟨some "u", some "t", none, none⟩⟩]) "q" none
        "news").references
      = some (Week3.refsOf [⟨"txt", ⟨some "u", some "t", none, none⟩⟩])) :=
  ⟨rfl, rfl,
   (chat_references_first_occurrence (fun _ c ctx q => (c, ctx ++ q))
      (fun _ => .ok "summary")
      (.ok [⟨"txt", ⟨some "u", some "t", none, none⟩⟩]) "q" none "news"
      [⟨"txt", ⟨some "u", some "t", none, none⟩⟩]).2.2 rfl rfl⟩

/-! ### C1: structured quiz generation with retries -/

/-- A successful MCQ attempt has passed the structural validation. -/
theorem attemptMCQ_ok (invoke : Nat → Except StudyBuddy.PyError StudyBuddy.MCQQuestion)
    (i : Nat) (q : StudyBuddy.MCQQuestion)
    (h : StudyBuddy.attemptMCQ invoke i = .ok q) :
    q.options.length = 4 ∧ q.correct_answer ∈ q.options := by
  unfold StudyBuddy.attemptMCQ at h
  cases hi : invoke i with
  | error e => rw [hi] at h; simp at h
  | ok p =>
      rw [hi] at h
      dsimp only at h
      by_cases hc : (p.options.length != 4
          || !(p.options.contains p.correct_answer)) = true
      · rw [if_pos hc] at h; simp at h
      · rw [if_neg hc] at h
        have hpq : p = q := by simpa using h
        subst hpq
        simpa using hc

/-- A successful fill-blank attempt contains the blank marker. -/
theorem attemptFillBlank_ok
    (invoke : Nat → Except StudyBuddy.PyError StudyBuddy.FillBlankQuestion)
    (i : Nat) (q : StudyBuddy.FillBlankQuestion)
    (h : StudyBuddy.attemptFillBlank invoke i = .ok q) :
    "___".toList <:+: q.question.toList := by
  unfold StudyBuddy.attemptFillBlank at h
  cases hi : invoke i with
  | error e => rw [hi] at h; simp at h
  | ok p =>
      rw [hi] at h
      dsimp only at h
      by_cases hc : (!(decide ("___".toList <:+: p.question.toList))) = true
      · rw [if_pos hc] at h; simp at h
      · rw [if_neg hc] at h
        have hpq : p = q := by simpa using h
        subst hpq
        simpa using hc

/-- A result of the three-attempt retry loop comes from one of the three
attempts. -/
theorem retryLoop_ok_attempt {α : Type}
    (attempt : Nat → Except StudyBuddy.PyError α) (msg : String) (q : α)
    (h : StudyBuddy.retryLoop attempt msg [0, 1, 2] = .ok (some q)) :
    attempt 0 = .ok q ∨ attempt 1 = .ok q ∨ attempt 2 = .ok q := by
  cases h0 : attempt 0 with
  | ok a =>
      have ha : a = q := by
        simpa [StudyBuddy.retryLoop, h0] using h
      subst ha
      exact Or.inl rfl
  | error e0 =>
      cases h1 : attempt 1 with
      | ok a =>
          have ha : a = q := by
            simpa [StudyBuddy.retryLoop, StudyBuddy.MAX_RETRIES, h0, h1] using h
          subst ha
          exact Or.inr (Or.inl rfl)
      | error e1 =>
          cases h2 : attempt 2 with
          | ok a =>
              have ha : a = q := by
                simpa [StudyBuddy.retryLoop, StudyBuddy.MAX_RETRIES,
                  h0, h1, h2] using h
              subst ha
              exact Or.inr (Or.inr rfl)
          | error e2 =>
              simp [StudyBuddy.retryLoop, StudyBuddy.MAX_RETRIES,
                h0, h1, h2] at h

/-- The retry loop never falls off the end of `range MAX_RETRIES`. -/
theorem retryLoop_ne_none {α : Type}
    (attempt : Nat → Except StudyBuddy.PyError α) (msg : String)
    (h : StudyBuddy.retryLoop attempt msg [0, 1, 2] = .ok none) : False := by
  cases h0 : attempt 0 with
  | ok a => simp [StudyBuddy.retryLoop, h0] at h
  | error e0 =>
      cases h1 : attempt 1 with
      | ok a => simp [StudyBuddy.retryLoop, StudyBuddy.MAX_RETRIES, h0, h1] at h
      | error e1 =>
          cases h2 : attempt 2 with
          | ok a =>
              simp [StudyBuddy.retryLoop, StudyBuddy.MAX_RETRIES, h0, h1, h2] at h
          | error e2 =>
              simp [StudyBuddy.retryLoop, StudyBuddy.MAX_RETRIES, h0, h1, h2] at h

/-- When all three attempts fail, the loop raises the exhausted-retries
error wrapping the third failure. -/
theorem retryLoop_exhausted {α : Type}
    (attempt : Nat → Except StudyBuddy.PyError α) (msg : String)
    (e0 e1 e2 : StudyBuddy.PyError)
    (h0 : attempt 0 = .error e0) (h1 : attempt 1 = .error e1)
    (h2 : attempt 2 = .error e2) :
    StudyBuddy.retryLoop attempt msg [0, 1, 2]
      = .error (.customException msg (some e2)) := by
  simp [StudyBuddy.retryLoop, StudyBuddy.MAX_RETRIES, h0, h1, h2]

/-- C1: the quiz generators' retry contract.  Every MCQ returned by
`generate_mcq` has exactly 4 options with the correct answer among them,
and every fill-blank question returned by `generate_fill_blank` contains
the literal "___" marker — a structurally invalid generation is never
returned (nor can the loop fall through with `None`).  Generation is
attempted at most `MAX_RETRIES = 3` times: the outcome depends only on
the first three chain invocations.  When every attempt fails, the call
raises `CustomException("... generation failed", e)` wrapping the
exhausted-retries error `CustomException("... failed after 3 attempts",
last)` which wraps the last underlying failure. -/
theorem quiz_generation_retry_contract
    (invM invM2 : Nat → Except StudyBuddy.PyError StudyBuddy.MCQQuestion)
    (invF invF2 : Nat → Except StudyBuddy.PyError StudyBuddy.FillBlankQuestion)
    (q : StudyBuddy.MCQQuestion) (qf : StudyBuddy.FillBlankQuestion)
    (e0 e1 e2 f0 f1 f2 : StudyBuddy.PyError) :
    (StudyBuddy.generate_mcq (some invM) = .ok (some q) →
      q.options.length = 4 ∧ q.correct_answer ∈ q.options) ∧
    (StudyBuddy.generate_fill_blank (some invF) = .ok (some qf) →
      "___".toList <:+: qf.question.toList) ∧
    (StudyBuddy.generate_mcq (some invM) ≠ .ok none) ∧
    ((∀ i, i < StudyBuddy.MAX_RETRIES → invM i = invM2 i) →
      StudyBuddy.generate_mcq (some invM)
        = StudyBuddy.generate_mcq (some invM2)) ∧
    ((∀ i, i < StudyBuddy.MAX_RETRIES → invF i = invF2 i) →
      StudyBuddy.generate_fill_blank (some invF)
        = StudyBuddy.generate_fill_blank (some invF2)) ∧
    (StudyBuddy.attemptMCQ invM 0 = .error e0 →
      StudyBuddy.attemptMCQ invM 1 = .error e1 →
      StudyBuddy.attemptMCQ invM 2 = .error e2 →
      StudyBuddy.generate_mcq (some invM)
        = .error (.customException "MCQ generation failed"
            (some (.customException
              ("MCQ generation failed after "
                ++ toString StudyBuddy.MAX_RETRIES ++ " attempts")
              (some e2))))) ∧
    (StudyBuddy.attemptFillBlank invF 0 = .error f0 →
      StudyBuddy.attemptFillBlank invF 1 = .error f1 →
      StudyBuddy.attemptFillBlank invF 2 = .error f2 →
      StudyBuddy.generate_fill_blank (some invF)
        = .error (.customException "Fill in blanks generation failed"
            (some (.customException
              ("Fill Blank generation failed after "
                ++ toString StudyBuddy.MAX_RETRIES ++ " attempts")
              (some f2))))) := by
  have range3 : List.range StudyBuddy.MAX_RETRIES = [0, 1, 2] := rfl
  refine ⟨?_, ?_, ?_, ?_, ?_, ?_, ?_⟩
  · intro hok
    simp only [StudyBuddy.generate_mcq, range3] at hok
    cases hinner : StudyBuddy.retryLoop (StudyBuddy.attemptMCQ invM)
        ("MCQ generation failed after "
          ++ toString StudyBuddy.MAX_RETRIES ++ " attempts") [0, 1, 2] with
    | ok r =>
        rw [hinner] at hok
        dsimp only at hok
        have hr : r = some q := by simpa using hok
        subst hr
        rcases retryLoop_ok_attempt _ _ _ hinner with h | h | h
        · exact attemptMCQ_ok invM 0 q h
        · exact attemptMCQ_ok invM 1 q h
        · exact attemptMCQ_ok invM 2 q h
    | error e =>
        rw [hinner] at hok
        simp at hok
  · intro hok
    simp only [StudyBuddy.generate_fill_blank, range3] at hok
    cases hinner : StudyBuddy.retryLoop (StudyBuddy.attemptFillBlank invF)
        ("Fill Blank generation failed after "
          ++ toString StudyBuddy.MAX_RETRIES ++ " attempts") [0, 1, 2] with
    | ok r =>
        rw [hinner] at hok
        dsimp only at hok
        have hr : r = some qf := by simpa using hok
        subst hr
        rcases retryLoop_ok_attempt _ _ _ hinner with h | h | h
        · exact attemptFillBlank_ok invF 0 qf h
        · exact attemptFillBlank_ok invF 1 qf h
        · exact attemptFillBlank_ok invF 2 qf h
    | error e =>
        rw [hinner] at hok
        simp at hok
  · intro hok
    simp only [StudyBuddy.generate_mcq, range3] at hok
    cases hinner : StudyBuddy.retryLoop (StudyBuddy.attemptMCQ invM)
        ("MCQ generation failed after "
          ++ toString StudyBuddy.MAX_RETRIES ++ " attempts") [0, 1, 2] with
    | ok r =>
        rw [hinner] at hok
        dsimp only at hok
        have hr : r = none := by simpa using hok
        subst hr
        exact retryLoop_ne_none _ _ hinner
    | error e =>
        rw [hinner] at hok
        simp at hok
  · intro hsame
    have a0 : StudyBuddy.attemptMCQ invM 0 = StudyBuddy.attemptMCQ invM2 0 := by
      unfold StudyBuddy.attemptMCQ
      rw [hsame 0 (by decide)]
    have a1 : StudyBuddy.attemptMCQ invM 1 = StudyBuddy.attemptMCQ invM2 1 := by
      unfold StudyBuddy.attemptMCQ
      rw [hsame 1 (by decide)]
    have a2 : StudyBuddy.attemptMCQ invM 2 = StudyBuddy.attemptMCQ invM2 2 := by
      unfold StudyBuddy.attemptMCQ
      rw [hsame 2 (by decide)]
    have hloop : ∀ msg, StudyBuddy.retryLoop (StudyBuddy.attemptMCQ invM)
        msg [0, 1, 2]
        = StudyBuddy.retryLoop (StudyBuddy.attemptMCQ invM2) msg [0, 1, 2] := by
      intro msg
      simp only [StudyBuddy.retryLoop, a0, a1, a2]
    simp only [StudyBuddy.generate_mcq, range3, hloop]
  · intro hsame
    have a0 : StudyBuddy.attemptFillBlank invF 0
        = StudyBuddy.attemptFillBlank invF2 0 := by
      unfold StudyBuddy.attemptFillBlank
      rw [hsame 0 (by decide)]
    have a1 : StudyBuddy.attemptFillBlank invF 1
        = StudyBuddy.attemptFillBlank invF2 1 := by
      unfold StudyBuddy.attemptFillBlank
      rw [hsame 1 (by decide)]
    have a2 : StudyBuddy.attemptFillBlank invF 2
        = StudyBuddy.attemptFillBlank invF2 2 := by
      unfold StudyBuddy.attemptFillBlank
      rw [hsame 2 (by decide)]
    have hloop : ∀ msg, StudyBuddy.retryLoop (StudyBuddy.attemptFillBlank invF)
        msg [0, 1, 2]
        = StudyBuddy.retryLoop (StudyBuddy.attemptFillBlank invF2)
            msg [0, 1, 2] := by
      intro msg
      simp only [StudyBuddy.retryLoop, a0, a1, a2]
    simp only [StudyBuddy.generate_fill_blank, range3, hloop]
  · intro h0 h1 h2
    have hloop := retryLoop_exhausted (StudyBuddy.attemptMCQ invM)
      ("MCQ generation failed after "
        ++ toString StudyBuddy.MAX_RETRIES ++ " attempts") e0 e1 e2 h0 h1 h2
    simp only [StudyBuddy.generate_mcq, range3, hloop]
  · intro h0 h1 h2
    have hloop := retryLoop_exhausted (StudyBuddy.attemptFillBlank invF)
      ("Fill Blank generation failed after "
        ++ toString StudyBuddy.MAX_RETRIES ++ " attempts") f0 f1 f2 h0 h1 h2
    simp only [StudyBuddy.generate_fill_blank, range3, hloop]

/-- Witness for C1: a valid generation is returned as-is (and satisfies
the structural constraints), while a chain that always produces a
structurally invalid result exhausts the three retries and fails with
the wrapped exhausted-retries error. -/
theorem quiz_generation_retry_contract_witness :
    (StudyBuddy.generate_mcq
        (some (fun _ => .ok ⟨"q?", ["a", "b", "c", "d"], "b"⟩))
      = .ok (some ⟨"q?", ["a", "b", "c", "d"], "b"⟩)) ∧
    ((⟨"q?", ["a", "b", "c", "d"], "b"⟩ :
        StudyBuddy.MCQQuestion).options.length = 4 ∧
      (⟨"q?", ["a", "b", "c", "d"], "b"⟩ :
        StudyBuddy.MCQQuestion).correct_answer
        ∈ (⟨"q?", ["a", "b", "c", "d"], "b"⟩ :
            StudyBuddy.MCQQuestion).options) ∧
    (StudyBuddy.attemptMCQ (fun _ => .ok ⟨"q?", ["a", "b", "c"], "z"⟩) 0
      = .error (.valueError "Invalid MCQ Structure")) ∧
    (StudyBuddy.generate_mcq
        (some (fun _ => .ok ⟨"q?", ["a", "b", "c"], "z"⟩))
      = .error (.customException "MCQ generation failed"
          (some (.customException
            ("MCQ generation failed after "
              ++ toString StudyBuddy.MAX_RETRIES ++ " attempts")
            (some (.valueError "Invalid MCQ Structure")))))) ∧
    (StudyBuddy.generate_fill_blank
        (some (fun _ => .ok ⟨"The capital is ___.", "Paris"⟩))
      = .ok (some ⟨"The capital is ___.", "Paris"⟩)) ∧
    ("___".toList <:+: ("The capital is ___." : String).toList) ∧
    (StudyBuddy.generate_fill_blank
        (some (fun _ => .ok ⟨"no blank", "x"⟩))
      = .error (.customException "Fill in blanks generation failed"
          (some (.customException
            ("Fill Blank generation failed after "
              ++ toString StudyBuddy.MAX_RETRIES ++ " attempts")
            (some (.valueError "Fill in blanks should contain '___'")))))) :=
  ⟨rfl,
   (quiz_generation_retry_contract
      (fun _ => .ok ⟨"q?", ["a", "b", "c", "d"], "b"⟩)
      (fun _ => .ok ⟨"q?", ["a", "b", "c", "d"], "b"⟩)
      (fun _ => .ok ⟨"The capital is ___.", "Paris"⟩)
      (fun _ => .ok ⟨"The capital is ___.", "Paris"⟩)
      ⟨"q?", ["a", "b", "c", "d"], "b"⟩ ⟨"The capital is ___.", "Paris"⟩
      (.valueError "") (.valueError "") (.valueError "")
      (.valueError "") (.valueError "") (.valueError "")).1 rfl,
   rfl,
   (quiz_generation_retry_contract
      (fun _ => .ok ⟨"q?", ["a", "b", "c"], "z"⟩)
      (fun _ => .ok ⟨"q?", ["a", "b", "c"], "z"⟩)
      (fun _ => .ok ⟨"no blank", "x"⟩)
      (fun _ => .ok ⟨"no blank", "x"⟩)
      ⟨"q?", ["a", "b", "c"], "z"⟩ ⟨"no blank", "x"⟩
      (.valueError "Invalid MCQ Structure")
      (.valueError "Invalid MCQ Structure")
      (.valueError "Invalid MCQ Structure")
      (.valueError "Fill in blanks should contain '___'")
      (.valueError "Fill in blanks should contain '___'")
      (.valueError "Fill in blanks should contain '___'")).2.2.2.2.2.1
      rfl rfl rfl,
   rfl,
   (quiz_generation_retry_contract
      (fun _ => .ok ⟨"q?", ["a", "b", "c", "d"], "b"⟩)
      (fun _ => .ok ⟨"q?", ["a", "b", "c", "d"], "b"⟩)
      (fun _ => .ok ⟨"The capital is ___.", "Paris"⟩)
      (fun _ => .ok ⟨"The capital is ___.", "Paris"⟩)
      ⟨"q?", ["a", "b", "c", "d"], "b"⟩ ⟨"The capital is ___.", "Paris"⟩
      (.valueError "") (.valueError "") (.valueError "")
      (.valueError "") (.valueError "") (.valueError "")).2.1 rfl,
   (quiz_generation_retry_contract
      (fun _ => .ok ⟨"q?", ["a", "b", "c"], "z"⟩)
      (fun _ => .ok ⟨"q?", ["a", "b", "c"], "z"⟩)
      (fun _ => .ok ⟨"no blank", "x"⟩)
      (fun _ => .ok ⟨"no blank", "x"⟩)
      ⟨"q?", ["a", "b", "c"], "z"⟩ ⟨"no blank", "x"⟩
      (.valueError "Invalid MCQ Structure")
      (.valueError "Invalid MCQ Structure")
      (.valueError "Invalid MCQ Structure")
      (.valueError "Fill in blanks should contain '___'")
      (.valueError "Fill in blanks should contain '___'")
      (.valueError "Fill in blanks should contain '___'")).2.2.2.2.2.2
      rfl rfl rfl⟩
